import Mathlib

/-!
Verification of the product search and pagination core of the WhatsappChatbot
repository: a shallow embedding of `text_search_api.py` (brand normalization,
keyword search, price-range search), `gemini_vector_search.py` (vector and
hybrid search pipelines) and the pagination dispatch of `main.py`, together
with theorems settling the specification claims about them.

Strings are manipulated through their character lists with structural
recursion only, so that every definition evaluates by `decide` / `rfl`.
-/

namespace WatchVine

/-! ## Character-list string primitives

Python string operations used by the source (`lower`, `strip`, `split`,
substring containment `in`, `endswith`) modelled on `List Char`.
-/

/-- Characters of a string. -/
def chars (s : String) : List Char := s.toList

/-- Python `str.lower()` on a character list (ASCII, which covers every
string the source compares). -/
def lowerL (l : List Char) : List Char := l.map Char.toLower

/-- Python `str.strip()`: drop leading and trailing whitespace. -/
def trimL (l : List Char) : List Char :=
  ((l.dropWhile (fun c => c == ' ')).reverse.dropWhile (fun c => c == ' ')).reverse

/-- `needle` is a prefix of `hay` (Boolean, structural). -/
def prefixB : List Char → List Char → Bool
  | [], _ => true
  | _ :: _, [] => false
  | c :: cs, d :: ds => c == d && prefixB cs ds

/-- Python `needle in hay` substring containment (Boolean, structural). -/
def containsB (hay needle : List Char) : Bool :=
  prefixB needle hay ||
    match hay with
    | [] => false
    | _ :: t => containsB t needle

/-- Case-insensitive substring containment: models an unanchored
`re.IGNORECASE` literal search, and MongoDB `$regex` with `$options: "i"`. -/
def containsCI (hay needle : String) : Bool :=
  containsB (lowerL (chars hay)) (lowerL (chars needle))

/-- Byte-wise lexicographic `≤` on character lists: MongoDB's comparison of
two BSON strings (UTF-8 code-unit order; identical to code-point order on
the ASCII strings stored here). -/
def lexLeL : List Char → List Char → Bool
  | [], _ => true
  | _ :: _, [] => false
  | a :: as, b :: bs =>
      if a.toNat < b.toNat then true
      else if b.toNat < a.toNat then false
      else lexLeL as bs

/-- Python `str.split()` on whitespace, dropping empty fields (accumulator
holds the current field reversed). -/
def splitWSAux : List Char → List Char → List (List Char)
  | [], acc => if acc.isEmpty then [] else [acc.reverse]
  | c :: rest, acc =>
      if c == ' ' then
        if acc.isEmpty then splitWSAux rest [] else acc.reverse :: splitWSAux rest []
      else splitWSAux rest (c :: acc)

/-- Python `str.split()` (the queries under test only use the space
character as whitespace). -/
def splitWS (l : List Char) : List (List Char) := splitWSAux l []

/-- Python `str.lower()` at `String` type. -/
def lowerStr (s : String) : String := String.mk (lowerL (chars s))

/-! ## Price coercion

MongoDB `$toDouble` applied to the text-stored `price` field.  The model
parses an unsigned decimal numeral to an exact rational; a string that is
not such a numeral yields `none` and the enclosing range condition treats
the document as non-matching (spec §9: non-numeric prices are silently
excluded from range queries). -/

/-- Parse a nonempty all-digit character list. -/
def parseDigitsAux : List Char → Nat → Option Nat
  | [], acc => some acc
  | c :: rest, acc =>
      if c.isDigit then parseDigitsAux rest (acc * 10 + (c.toNat - 48)) else none

/-- `parseDigits l` is the numeral value of `l`, or `none` if `l` is empty
or contains a non-digit. -/
def parseDigits (l : List Char) : Option Nat :=
  if l.isEmpty then none else parseDigitsAux l 0

/-- Split a character list at the first dot. -/
def splitAtDot : List Char → List Char × Option (List Char)
  | [] => ([], none)
  | c :: rest =>
      if c == '.' then ([], some rest)
      else
        let r := splitAtDot rest
        (c :: r.1, r.2)

/-- `$toDouble` on a price string: integer part, optional fractional part. -/
def parsePrice (s : String) : Option ℚ :=
  let l := chars s
  match splitAtDot l with
  | (ip, none) => (parseDigits ip).map (fun n => (n : ℚ))
  | (ip, some fp) =>
      match parseDigits ip, parseDigits fp with
      | some a, some b => some ((a : ℚ) + (b : ℚ) / (10 : ℚ) ^ fp.length)
      | _, _ => none

/-! ## Data model

One record type carries the union of the fields read by the keyword-search
path (`name`, `price`, `image_urls`, `url`, `category`, `category_key`) and
by the vector/hybrid path (`brand`, `colors`, `belt_type`, `ai_category`,
`text_embedding`).  Fields the claims never touch (styles, materials,
description, …) are omitted. -/

structure Product where
  name : String
  brand : String
  price : String
  image_urls : List String
  url : String
  category : String
  category_key : String
  colors : List String
  belt_type : String
  ai_category : String
  text_embedding : Option (List ℚ)
deriving DecidableEq

/-- A MongoDB cursor `.limit(n)`: `n = 0` means no limit. -/
def mongoLimit (n : Nat) (l : List α) : List α :=
  if n == 0 then l else l.take n

/-! ## Brand/category normalizer (`text_search_api.py` 70-126) -/

/-- `BRAND_MAPPING`: user input → database format.  A Python dict preserves
insertion order, so an association list is faithful; iteration order is
significant for the substring fallback. -/
def BRAND_MAPPING : List (String × String) :=
  [("fossil", "fossi_l"),
   ("tissot", "tisso_t"),
   ("armani", "arman_i"),
   ("tommy", "tomm_y"),
   ("tommy hilfiger", "tomm_y"),
   ("rolex", "role_x"),
   ("rado", "rad_o"),
   ("omega", "omeg_a"),
   ("patek", "Patek_Philippe"),
   ("patek philippe", "Patek_Philippe"),
   ("patek phillips", "Patek_Philippe"),
   ("hublot", "hublo_t"),
   ("cartier", "cartie_r"),
   ("ap", "Audemars"),
   ("audemars", "Audemars"),
   ("tag", "tag"),
   ("tag heuer", "tag"),
   ("tag huer", "tag"),
   ("mk", "mic"),
   ("michael kors", "mic"),
   ("alix", "alix"),
   ("naviforce", "naviforce"),
   ("reward", "reward"),
   ("ax", "ax"),
   ("armani exchange", "arman_i")]

/-- `normalize_brand_name` (`text_search_api.py` 101-118): lower/strip the
keyword, try an exact table lookup, then the first table pair whose key is
contained in the keyword or contains it (table order), else return the
original keyword unchanged. -/
def normalize_brand_name (keyword : String) : String :=
  let kl : List Char := trimL (lowerL (chars keyword))
  match BRAND_MAPPING.find? (fun uv => chars uv.1 == kl) with
  | some uv => uv.2
  | none =>
      match BRAND_MAPPING.find? (fun uv =>
          containsB kl (chars uv.1) || containsB (chars uv.1) kl) with
      | some uv => uv.2
      | none => keyword

/-- `GENERIC_TYPES` (`text_search_api.py` 122). -/
def GENERIC_TYPES : List String :=
  ["watch", "watches", "shoe", "shoes", "bag", "bags", "sunglass", "sunglasses"]

/-- `is_generic_type` (`text_search_api.py` 124-126). -/
def is_generic_type (keyword : String) : Bool :=
  GENERIC_TYPES.any (fun g => chars g == lowerL (chars keyword))

/-! ## Keyword search (`text_search_api.py` 326-411) -/

/-- The tokenizer of `search_products_by_text` line 336: split on
whitespace, strip and lowercase each token, drop tokens of length ≤ 1. -/
def tokenize (query : String) : List (List Char) :=
  ((splitWS (chars query)).map (fun t => lowerL (trimL t))).filter
    (fun t => t.length > 1)

/-- Keywords surviving brand normalization and generic-type elision
(lines 350-365): each token is normalized, and a normalized token that is a
generic type is dropped only when the original token list has more than one
element. -/
def effectiveKeywords (query : String) : List String :=
  let keywords := tokenize query
  (keywords.map (fun t => normalize_brand_name (String.mk t))).filter
    (fun n => !(is_generic_type n && keywords.length > 1))

/-- The pluralizable set of line 373. -/
def PLURALIZABLE : List String := ["watch", "shoe", "bag", "glass", "sunglass"]

/-- The regex stem built for one keyword (lines 368-377).  A keyword ending
in `s` gets pattern `stem + "e?s?"` with `stem` the keyword minus its final
`s`; a pluralizable keyword gets `keyword + "e?s?"`; otherwise the escaped
keyword itself.  Because the trailing `e?s?` is optional, an unanchored
search with any of these patterns succeeds exactly when the subject
contains the stem, so the stem determines the match. -/
def keywordPattern (kw : String) : List Char :=
  let k := chars kw
  if k.getLast? == some 's' then k.dropLast
  else if PLURALIZABLE.contains kw then k
  else k

/-- One per-keyword `$regex` condition on `name` (case-insensitive). -/
def nameMatches (name : String) (kw : String) : Bool :=
  containsB (lowerL (chars name)) (lowerL (keywordPattern kw))

/-- The conjunction of all `$and` conditions built by
`search_products_by_text`: every keyword pattern must match `name`, the
`category_key` must equal the filter exactly when supplied, and when a
price bound is supplied the `$toDouble`-coerced price must satisfy it
(an uncoercible price never matches). -/
def matchesQuery (kws : List String) (cat : Option String)
    (minp maxp : Option ℚ) (p : Product) : Bool :=
  kws.all (fun kw => nameMatches p.name kw) &&
  (match cat with
   | none => true
   | some c => p.category_key == c) &&
  (if minp.isSome || maxp.isSome then
     match parsePrice p.price with
     | none => false
     | some v =>
         (match minp with
          | none => true
          | some m => decide (m ≤ v)) &&
         (match maxp with
          | none => true
          | some M => decide (v ≤ M))
   else true)

/-- `search_products_by_text` (`text_search_api.py` 326-411) over a catalog
list standing for the MongoDB collection.  Empty token list with no
category filter returns `[]` (line 338); an empty `$and` condition list
returns `[]` (line 401); otherwise the conjunctive filter runs with
`.limit(max_results)`.  (In the source the effective keywords are computed
only when the token list is nonempty; when it is empty `effectiveKeywords`
is `[]` as well, so hoisting it is equivalent.) -/
def search_products_by_text (catalog : List Product) (query : String)
    (max_results : Nat) (category_filter : Option String)
    (min_price max_price : Option ℚ) : List Product :=
  let keywords := tokenize query
  if keywords.isEmpty && category_filter.isNone then []
  else
    let kws := effectiveKeywords query
    if kws.isEmpty && category_filter.isNone &&
        min_price.isNone && max_price.isNone then []
    else
      mongoLimit max_results
        (catalog.filter (matchesQuery kws category_filter min_price max_price))

/-! ## Price-range search (`text_search_api.py` 165-202 and 480-538) -/

/-- `search_products_by_price_range`: exact match on the lowercased
category and inclusive `$toDouble` bounds on price, capped at
`max_results`. -/
def search_products_by_price_range (catalog : List Product) (category : String)
    (min_price max_price : ℚ) (max_results : Nat) : List Product :=
  mongoLimit max_results
    (catalog.filter (fun p =>
      p.category_key == lowerStr category &&
      (match parsePrice p.price with
       | none => false
       | some v => decide (min_price ≤ v) && decide (v ≤ max_price))))

/-- Outcome of the `/search/range` endpoint: an HTTP 400 rejection, the
404 `no_match` response, or a success payload. -/
inductive RangeSearchOutcome where
  | httpError (detail : String)
  | noMatch
  | ok (products : List Product)
deriving DecidableEq

/-- The products of a successful range response. -/
def RangeSearchOutcome.okProducts : RangeSearchOutcome → List Product
  | .ok ps => ps
  | _ => []

/-- Whether the outcome is an HTTP 400 rejection. -/
def RangeSearchOutcome.isHttpError : RangeSearchOutcome → Bool
  | .httpError _ => true
  | _ => false

/-- `search_products_in_range` (`text_search_api.py` 480-538): validation
in source order — category length, non-negative prices, `min ≤ max` — all
before the store is consulted; then the range search, with an empty result
mapped to the 404 `no_match` response. -/
def search_products_in_range (catalog : List Product) (category : String)
    (min_price max_price : ℚ) (max_results : Nat) : RangeSearchOutcome :=
  if (trimL (chars category)).length < 2 then
    .httpError "Category must be at least 2 characters"
  else if min_price < 0 || max_price < 0 then
    .httpError "Prices must be positive"
  else if min_price > max_price then
    .httpError "Min price cannot be greater than max price"
  else
    match search_products_by_price_range catalog category min_price max_price max_results with
    | [] => .noMatch
    | p :: ps => .ok (p :: ps)

/-! ## Vector and hybrid search (`gemini_vector_search.py` 156-269)

The embedding function and the store's cosine scoring are external
collaborators: the model takes the query embedding (`[]` standing for
"unavailable / returned no vector", exactly the value
`generate_text_embedding` produces on failure) and a scoring function
`sim` giving each product's similarity to that query.  `$vectorSearch`
is modelled as exact top-`limit` retrieval over the products that have an
embedding, ordered by descending score (`numCandidates` is only the ANN
accuracy knob of the real index). -/

/-- Products visible to `$vectorSearch`: those with a `text_embedding`. -/
def indexedProducts (catalog : List Product) : List Product :=
  catalog.filter (fun p => p.text_embedding.isSome)

/-- Rank a candidate list by descending similarity score (stable). -/
def rankByScore (sim : Product → ℚ) (ps : List Product) : List Product :=
  ps.insertionSort (fun a b => sim b ≤ sim a)

/-- `vector_search` (`gemini_vector_search.py` 156-200): empty query
embedding degrades to `[]`; otherwise the top `limit` indexed products by
descending score. -/
def vector_search (sim : Product → ℚ) (queryEmbedding : List ℚ)
    (catalog : List Product) (limit : Nat) : List Product :=
  if queryEmbedding.isEmpty then []
  else (rankByScore sim (indexedProducts catalog)).take limit

/-- The filters of `hybrid_search` (a Python dict; an absent or falsy
entry adds no `$match` condition, which is why empty `colors`, a zero
`price_max`, and `none` all skip their condition). -/
structure HybridFilters where
  colors : List String
  brand : Option String
  price_max : Option Nat
  belt_type : Option String
  ai_category : Option String
deriving DecidableEq

/-- The `$match` stage of `hybrid_search` (lines 211-223).  Note the price
condition: the source writes `{"$lte": str(filters["price_max"])}`, so the
text-stored price is compared to the *decimal string* of the ceiling under
MongoDB's lexicographic string order, not numerically; and a ceiling of `0`
is falsy in Python, so it adds no condition at all. -/
def hybridMatch (f : HybridFilters) (p : Product) : Bool :=
  (f.colors.isEmpty || p.colors.any (fun c => f.colors.contains c)) &&
  (match f.brand with
   | none => true
   | some b => containsCI p.brand b) &&
  (match f.price_max with
   | none => true
   | some v => if v == 0 then true else lexLeL (chars p.price) (chars (Nat.repr v))) &&
  (match f.belt_type with
   | none => true
   | some b => p.belt_type == b) &&
  (match f.ai_category with
   | none => true
   | some c => p.ai_category == c)

/-- The candidate pool of `hybrid_search`: the `$vectorSearch` stage with
`limit: limit * 3` (line 233). -/
def hybridCandidatePool (sim : Product → ℚ) (catalog : List Product)
    (limit : Nat) : List Product :=
  (rankByScore sim (indexedProducts catalog)).take (limit * 3)

/-- `hybrid_search` (`gemini_vector_search.py` 202-269): empty query
embedding degrades to `[]`; otherwise vector retrieval of `limit * 3`
candidates, the `$match` post-filter (order-preserving), and `$limit`.
When no filter is active `hybridMatch` is constantly true, matching the
source's omission of the `$match` stage. -/
def hybrid_search (sim : Product → ℚ) (queryEmbedding : List ℚ)
    (catalog : List Product) (f : HybridFilters) (limit : Nat) : List Product :=
  if queryEmbedding.isEmpty then []
  else ((hybridCandidatePool sim catalog limit).filter (hybridMatch f)).take limit

/-! ## Image delivery and pagination bookkeeping
(`text_search_api.py` 661-732, `main.py` 488-591 and 826-874)

Image downloads and WhatsApp delivery are external I/O; the model takes a
download oracle `dl : String → Bool` saying which image URLs download
successfully, and assumes message delivery succeeds. -/

/-- The per-product image slices of `/search/images-list`
(`text_search_api.py` 707-724): the successfully downloaded images are the
order-preserving compaction of all collected URLs, and each product is
assigned the slice `[start, start+count)` of that compacted list by its
*original* start index, clipped to the list's length; a product whose
slice is empty is omitted from the response. -/
def assignSlices (base64s : List String) : List Product → Nat → List (Product × List String)
  | [], _ => []
  | p :: rest, start =>
      let imgs := (base64s.drop start).take p.image_urls.length
      let tail := assignSlices base64s rest (start + p.image_urls.length)
      if imgs.isEmpty then tail else (p, imgs) :: tail

/-- The product list of the `/search/images-list` response
(`text_search_api.py` 661-732): keyword search (category always `None` —
the endpoint's request model has no category field), products without
image URLs dropped before download, then per-product slices of the
successfully downloaded images. -/
def imagesListResults (catalog : List Product) (query : String)
    (max_results : Nat) (min_price max_price : Option ℚ)
    (dl : String → Bool) : List (Product × List String) :=
  let products := search_products_by_text catalog query max_results none min_price max_price
  let withImgs := products.filter (fun p => !p.image_urls.isEmpty)
  let base64s := ((withImgs.map (fun p => p.image_urls)).flatten).filter dl
  assignSlices base64s withImgs 0

/-- `send_product_images_v2` (`main.py` 488-591), returning
`(success, total_found, success_count)`.  The search payload hardcodes
`max_results: 50`; the `category_key` argument is placed in the payload as
`category_filter` but the endpoint's request model has no such field, so
it never reaches the search (its parameter is kept here and ignored, as in
the source).  `total_found` is the length of the response's product list;
the batch is the Python slice `[start_index:end_index]`; every entry of the
response carries at least one image, and with delivery assumed successful
the number sent is the batch length. -/
def send_product_images_v2 (catalog : List Product) (keyword : String)
    (start_index batch_size : Nat) (min_price max_price : Option ℚ)
    (_category_key : Option String) (dl : String → Bool) : Bool × Nat × Nat :=
  if (trimL (chars keyword)).length < 2 then (false, 0, 0)
  else
    if (search_products_by_text catalog keyword 50 none min_price max_price).isEmpty then
      (false, 0, 0)
    else
      let resultProducts := imagesListResults catalog keyword 50 min_price max_price dl
      if resultProducts.isEmpty then (false, 0, 0)
      else
        let total_found := resultProducts.length
        let end_index := min (start_index + batch_size) total_found
        let toSend := (resultProducts.drop start_index).take (end_index - start_index)
        (true, total_found, toSend.length)

/-- The pagination session stored by `save_search_context` /
`get_search_context`.  (`agent_orchestrator.py` is not part of the sources;
the record follows the spec's PaginationSession and the keyword arguments
used at the call sites in `main.py`.) -/
structure SearchContext where
  keyword : String
  total_found : Nat
  sent_count : Nat
  min_price : Option ℚ
  max_price : Option ℚ
  category_key : Option String
deriving DecidableEq

/-- The result of `orchestrator.analyze_message` relevant to pagination:
the external AI classifier either signals a show-more intent or anything
else. -/
inductive ClassifierAction where
  | show_more
  | other
deriving DecidableEq

/-- What the webhook text-message handler does with a message, as far as
pagination is concerned. -/
inductive WebhookOutcome where
  | exhaustionMessage
  | sendNextBatch (start_index : Nat)
  | normalFlow
deriving DecidableEq

/-- Whether the outcome is the explicit "you've seen everything"
exhaustion reply of `main.py` line 852. -/
def WebhookOutcome.isExhaustionMessage : WebhookOutcome → Bool
  | .exhaustionMessage => true
  | _ => false

/-- The pagination dispatch of the webhook (`main.py` 826-875): the
show-more branch is guarded by `sent_count < total_found` (line 830); only
inside it is the classifier's show-more intent honored, where line 850
re-checks `sent_count >= total_found` before replying with the exhaustion
message or sending the next batch from offset `sent_count`.  Any other
situation falls through to the generic user-state / classifier flow
(line 875 on). -/
def webhook_show_more_dispatch : Option SearchContext → ClassifierAction → WebhookOutcome
  | none, _ => .normalFlow
  | some c, .show_more =>
      if c.sent_count < c.total_found then
        if c.total_found ≤ c.sent_count then .exhaustionMessage
        else .sendNextBatch c.sent_count
      else .normalFlow
  | some _, .other => .normalFlow

/-! ## Concrete inputs used by witnesses and counterexamples -/

/-- A men's watch whose stored name uses the obfuscated brand token. -/
def pMensWatch : Product :=
  ⟨"Role_x GMT Master", "role_x", "4500", ["m1"], "", "Men's Watches",
   "mens_watch", [], "", "", none⟩

/-- Same-brand sunglasses in a different category. -/
def pWomensSun : Product :=
  ⟨"Role_x Aviator", "role_x", "1200", ["w1"], "", "Women's Sunglasses",
   "womens_sunglasses", [], "", "", none⟩

/-- A product named with the singular "Watch". -/
def pClassicWatch : Product :=
  ⟨"Classic Watch", "", "999", ["c1"], "", "Men's Watches",
   "mens_watch", [], "", "", none⟩

/-- A product named with the plural "Watches". -/
def pClassicWatches : Product :=
  ⟨"Classic Watches", "", "999", ["c2"], "", "Men's Watches",
   "mens_watch", [], "", "", none⟩

/-- A cheap product matched by a price-only condition. -/
def pCheap : Product :=
  ⟨"Blue Leather Strap", "", "100", ["b1"], "", "Accessories",
   "bracelet", [], "", "", none⟩

/-- A watch priced inside the 1000-2000 range, category key in the stored
lowercase form. -/
def pRangeWatch : Product :=
  ⟨"Fossi_l Chrono", "fossi_l", "1500", ["f1"], "", "Watches",
   "watches", [], "", "", none⟩

/-- An indexed product whose stored price string is "2000". -/
def pExpensive : Product :=
  ⟨"Omeg_a Seamaster", "omeg_a", "2000", ["o1"], "", "Men's Watches",
   "mens_watch", [], "leather", "mens_watch", some [1]⟩

/-- Hybrid filters asking for a price ceiling of 500 rupees. -/
def ceiling500 : HybridFilters := ⟨[], none, some 500, none, none⟩

/-- A constant similarity scoring (any scoring works for the theorems;
witnesses need a concrete one). -/
def simZero : Product → ℚ := fun _ => 0

/-- A product named with the brand token `normalize_brand_name` produces
for "strap". -/
def pAudemars : Product :=
  ⟨"Audemars Royal Oak", "Audemars", "5200", ["a1"], "", "Men's Watches",
   "mens_watch", [], "", "", none⟩

/-- A product whose name literally contains the user's word "strap". -/
def pStrapWatch : Product :=
  ⟨"Leather Strap Watch", "", "800", ["s1"], "", "Men's Watches",
   "mens_watch", [], "", "", none⟩

/-- A deliverable `Role_x` product (one image). -/
def pRolexImg : Product :=
  ⟨"Role_x Daytona", "role_x", "3000", ["r1"], "", "Men's Watches",
   "mens_watch", [], "", "", none⟩

/-- A matching product with zero images. -/
def pRolexNoImg : Product :=
  ⟨"Role_x Submariner", "role_x", "3100", [], "", "Men's Watches",
   "mens_watch", [], "", "", none⟩

/-- A catalog with 52 keyword matches, one of which has no images: the
first two entries are fetched within the 50-product cap, the final two
replicated entries fall beyond it. -/
def bigCatalog : List Product :=
  pRolexImg :: pRolexNoImg :: List.replicate 50 pRolexImg

/-- The download oracle under which every image URL downloads. -/
def dlAll : String → Bool := fun _ => true

/-! ## Helper lemmas -/

theorem mem_mongoLimit {a : α} {n : Nat} {l : List α} (h : a ∈ mongoLimit n l) : a ∈ l := by
  unfold mongoLimit at h
  by_cases hn : (n == 0) = true
  · rwa [if_pos hn] at h
  · rw [if_neg hn] at h
    exact List.take_subset n l h

theorem length_mongoLimit_le (n : Nat) (hn : (n == 0) = false) (l : List α) :
    (mongoLimit n l).length ≤ n := by
  unfold mongoLimit
  rw [if_neg (by simp [hn])]
  rw [List.length_take]
  exact min_le_left n l.length

theorem length_search_products_by_text_le (catalog : List Product) (query : String)
    (max_results : Nat) (hn : (max_results == 0) = false)
    (cat : Option String) (minp maxp : Option ℚ) :
    (search_products_by_text catalog query max_results cat minp maxp).length ≤ max_results := by
  unfold search_products_by_text
  by_cases h1 : ((tokenize query).isEmpty && cat.isNone) = true
  · rw [if_pos h1]
    exact Nat.zero_le _
  · rw [if_neg h1]
    by_cases h2 : ((effectiveKeywords query).isEmpty && cat.isNone &&
        minp.isNone && maxp.isNone) = true
    · rw [if_pos h2]
      exact Nat.zero_le _
    · rw [if_neg h2]
      exact length_mongoLimit_le max_results hn _

theorem assignSlices_snd_not_empty (b : List String) :
    ∀ (ps : List Product) (s : Nat) (pr : Product × List String),
      pr ∈ assignSlices b ps s → pr.2.isEmpty = false
  | [], _, _, h => by simp [assignSlices] at h
  | p :: rest, s, pr, h => by
      unfold assignSlices at h
      by_cases hi : ((b.drop s).take p.image_urls.length).isEmpty = true
      · rw [if_pos hi] at h
        exact assignSlices_snd_not_empty b rest _ pr h
      · rw [if_neg hi] at h
        rcases List.mem_cons.mp h with he | ht
        · rw [he]
          simpa using hi
        · exact assignSlices_snd_not_empty b rest _ pr ht

theorem assignSlices_length_le (b : List String) :
    ∀ (ps : List Product) (s : Nat), (assignSlices b ps s).length ≤ ps.length
  | [], _ => by simp [assignSlices]
  | p :: rest, s => by
      unfold assignSlices
      by_cases hi : ((b.drop s).take p.image_urls.length).isEmpty = true
      · rw [if_pos hi]
        exact Nat.le_succ_of_le (assignSlices_length_le b rest _)
      · rw [if_neg hi]
        exact Nat.succ_le_succ (assignSlices_length_le b rest _)

theorem imagesListResults_length_le (catalog : List Product) (query : String)
    (max_results : Nat) (hn : (max_results == 0) = false) (minp maxp : Option ℚ)
    (dl : String → Bool) :
    (imagesListResults catalog query max_results minp maxp dl).length ≤ max_results := by
  unfold imagesListResults
  refine le_trans (assignSlices_length_le _ _ _) (le_trans ?_
    (length_search_products_by_text_le catalog query max_results hn none minp maxp))
  exact List.length_filter_le _ _

theorem sorted_rankByScore (sim : Product → ℚ) (ps : List Product) :
    List.Sorted (fun a b => sim b ≤ sim a) (rankByScore sim ps) := by
  haveI : IsTotal Product (fun a b => sim b ≤ sim a) :=
    ⟨fun a b => le_total (sim b) (sim a)⟩
  haveI : IsTrans Product (fun a b => sim b ≤ sim a) :=
    ⟨fun _ _ _ h1 h2 => le_trans h2 h1⟩
  exact List.sorted_insertionSort _ ps

theorem length_rankByScore (sim : Product → ℚ) (ps : List Product) :
    (rankByScore sim ps).length = ps.length :=
  List.length_insertionSort _ ps

/-! ## Claims -/

/-- C1: every keyword search invoked with a category filter returns only
products whose `category_key` is exactly equal to the supplied value — the
category condition is an exact equality on the field, never fuzzy, so a
brand search scoped to one category cannot return same-brand products from
another category. -/
theorem C1_category_scoping (catalog : List Product) (query : String)
    (max_results : Nat) (cat : String) (minp maxp : Option ℚ) :
    ∀ p ∈ search_products_by_text catalog query max_results (some cat) minp maxp,
      p.category_key = cat := by
  intro p hp
  unfold search_products_by_text at hp
  rw [if_neg (by simp)] at hp
  by_cases h2 : ((effectiveKeywords query).isEmpty && (Option.some cat).isNone &&
      minp.isNone && maxp.isNone) = true
  · simp at h2
  · rw [if_neg h2] at hp
    have hmem := List.mem_filter.mp (mem_mongoLimit hp)
    have hq := hmem.2
    unfold matchesQuery at hq
    simp only [Bool.and_eq_true] at hq
    have hcat := hq.1.2
    simpa using hcat

/-- C1 witness: the scoped "rolex" search over a catalog holding a men's
watch and same-brand women's sunglasses returns the watch, and the theorem
yields its category key. -/
theorem C1_category_scoping_witness :
    pMensWatch ∈ search_products_by_text [pMensWatch, pWomensSun] "rolex" 10
        (some "mens_watch") none none ∧
    pMensWatch.category_key = "mens_watch" :=
  ⟨by decide,
   C1_category_scoping [pMensWatch, pWomensSun] "rolex" 10 "mens_watch" none none
     pMensWatch (by decide)⟩

/-- C2 counterexample: against a catalog containing the product named
"Classic Watch", the query "watch" returns it but the query "watches"
returns nothing, so the claim that both queries return the product is
false. -/
theorem C2_plural_query_counterexample :
    search_products_by_text [pClassicWatch] "watch" 10 none none none = [pClassicWatch] ∧
    search_products_by_text [pClassicWatch] "watches" 10 none none none = [] := by
  decide

/-- C2 amended: the query "watch" matches any name containing "watch", so
it returns both "Classic Watch" and "Classic Watches"; a token ending in
"s" is matched through the stem obtained by dropping only that final "s"
(plus the optional `e?s?` tail), so "watches" searches for the stem
"watche" and returns only the plural-named product, never the singular
"Classic Watch". -/
theorem C2_pluralization_amended :
    search_products_by_text [pClassicWatch, pClassicWatches] "watch" 10 none none none
        = [pClassicWatch, pClassicWatches] ∧
    search_products_by_text [pClassicWatch, pClassicWatches] "watches" 10 none none none
        = [pClassicWatches] ∧
    keywordPattern "watches" = chars "watche" := by
  decide

/-- C3 counterexample: the query "watch bag" tokenizes to zero keyword
tokens after generic-type elision and no category is supplied, yet with a
minimum-price filter the search runs a price-only query and returns a
product instead of the empty list the claim requires. -/
theorem C3_price_only_counterexample :
    effectiveKeywords "watch bag" = [] ∧
    search_products_by_text [pCheap] "watch bag" 10 none (some 1) none = [pCheap] := by
  decide

/-- C3 amended: a query with zero effective keyword tokens, no category
filter and no price bounds returns the empty list — the search never
degenerates into an unfiltered whole-catalog query; when a price bound is
supplied the code instead runs a price-only query. -/
theorem C3_empty_query_amended (catalog : List Product) (query : String)
    (max_results : Nat) (h : effectiveKeywords query = []) :
    search_products_by_text catalog query max_results none none none = [] := by
  unfold search_products_by_text
  simp [h]

/-- C3 witness: "watch bag" has zero effective keyword tokens, and without
category or price filters the search returns the empty list. -/
theorem C3_empty_query_amended_witness :
    effectiveKeywords "watch bag" = [] ∧
    search_products_by_text [pCheap] "watch bag" 7 none none none = [] :=
  ⟨by decide, C3_empty_query_amended [pCheap] "watch bag" 7 (by decide)⟩

/-- C4: brand normalization is idempotent on every entry of the static
brand table, both the user-facing keys and the database-format values,
under the implemented lookup order (exact match first, then the first
bidirectional substring match in table iteration order, else identity). -/
theorem C4_normalize_brand_idempotent :
    (BRAND_MAPPING.map (fun uv => uv.1) ++ BRAND_MAPPING.map (fun uv => uv.2)).all
      (fun x => normalize_brand_name (normalize_brand_name x) == normalize_brand_name x)
      = true := by
  decide

/-- C5 counterexample: the range endpoint matches `category_key` against
the *lowercased* request category, so the accepted request with category
"Watches" returns a product whose `category_key` is "watches", which is
not exactly equal to the requested string. -/
theorem C5_lowercased_category_counterexample :
    search_products_in_range [pRangeWatch] "Watches" 1000 2000 50
        = RangeSearchOutcome.ok [pRangeWatch] ∧
    pRangeWatch.category_key = "watches" ∧
    (pRangeWatch.category_key == "Watches") = false := by
  decide

/-- C5 amended: a request with `min_price > max_price` is rejected with an
HTTP error before any store access (the outcome does not depend on the
catalog), and every product of an accepted request's result has
`category_key` exactly equal to the lowercased requested category and a
coercible price lying in the inclusive interval `[min_price, max_price]`. -/
theorem C5_range_search_amended (catalog : List Product) (category : String)
    (minp maxp : ℚ) (maxr : Nat) :
    (minp > maxp →
      (search_products_in_range catalog category minp maxp maxr).isHttpError = true ∧
      search_products_in_range catalog category minp maxp maxr
        = search_products_in_range [] category minp maxp maxr) ∧
    ∀ p ∈ (search_products_in_range catalog category minp maxp maxr).okProducts,
      p.category_key = lowerStr category ∧
      ∃ v, parsePrice p.price = some v ∧ minp ≤ v ∧ v ≤ maxp := by
  constructor
  · intro hgt
    unfold search_products_in_range
    by_cases h1 : (trimL (chars category)).length < 2
    · rw [if_pos h1, if_pos h1]
      exact ⟨rfl, rfl⟩
    · rw [if_neg h1, if_neg h1]
      by_cases h2 : (decide (minp < 0) || decide (maxp < 0)) = true
      · rw [if_pos h2, if_pos h2]
        exact ⟨rfl, rfl⟩
      · rw [if_neg h2, if_neg h2, if_pos hgt, if_pos hgt]
        exact ⟨rfl, rfl⟩
  · intro p hp
    unfold search_products_in_range at hp
    by_cases h1 : (trimL (chars category)).length < 2
    · rw [if_pos h1] at hp
      simp [RangeSearchOutcome.okProducts] at hp
    · rw [if_neg h1] at hp
      by_cases h2 : (decide (minp < 0) || decide (maxp < 0)) = true
      · rw [if_pos h2] at hp
        simp [RangeSearchOutcome.okProducts] at hp
      · rw [if_neg h2] at hp
        by_cases h3 : minp > maxp
        · rw [if_pos h3] at hp
          simp [RangeSearchOutcome.okProducts] at hp
        · rw [if_neg h3] at hp
          have hp2 : p ∈ search_products_by_price_range catalog category minp maxp maxr := by
            cases hres : search_products_by_price_range catalog category minp maxp maxr with
            | nil =>
                rw [hres] at hp
                simp [RangeSearchOutcome.okProducts] at hp
            | cons q qs =>
                rw [hres] at hp
                simpa [RangeSearchOutcome.okProducts] using hp
          unfold search_products_by_price_range at hp2
          have hmem := List.mem_filter.mp (mem_mongoLimit hp2)
          have hq := hmem.2
          simp only [Bool.and_eq_true] at hq
          refine ⟨by simpa using hq.1, ?_⟩
          cases hv : parsePrice p.price with
          | none =>
              rw [hv] at hq
              simp at hq
          | some v =>
              rw [hv] at hq
              have hb := hq.2
              simp only [Bool.and_eq_true, decide_eq_true_eq] at hb
              exact ⟨v, rfl, hb.1, hb.2⟩

/-- C5 witness: the rejection fires on a concrete inverted range, and the
soundness part yields the category key of a concretely returned product. -/
theorem C5_range_search_amended_witness :
    (search_products_in_range [] "watches" 3 1 10).isHttpError = true ∧
    pRangeWatch.category_key = lowerStr "watches" :=
  ⟨((C5_range_search_amended [] "watches" 3 1 10).1 (by norm_num)).1,
   ((C5_range_search_amended [pRangeWatch] "watches" 1000 2000 50).2 pRangeWatch
      (by decide)).1⟩

/-- C6 counterexample: `hybrid_search` compares the text-stored price with
the decimal string of the ceiling under lexicographic string order, so the
product priced "2000" passes the filter for a ceiling of 500 and is
returned, although its numeric price 2000 exceeds the ceiling — the
claim's "numeric price at most the price ceiling" is false. -/
theorem C6_lexicographic_price_counterexample :
    hybrid_search simZero [1] [pExpensive] ceiling500 1 = [pExpensive] ∧
    ceiling500.price_max = some 500 ∧
    parsePrice pExpensive.price = some 2000 ∧
    ((500 : ℚ) < 2000) := by
  refine ⟨by decide, by decide, by decide, by decide⟩

/-- C6 amended: for every similarity scoring and query embedding, the
hybrid result has length at most `limit`; every returned product satisfies
the structured filters as implemented (color membership, case-insensitive
brand substring, belt-type and category exact match, and the price
condition as a lexicographic string comparison with `str(price_max)`,
skipped when the ceiling is 0) and belongs to what `vector_search` returns
at the enlarged limit `limit * 3`; the result is ordered by descending
similarity score; and the candidate pool retrieved before filtering is the
top `limit * 3` of the indexed catalog. -/
theorem C6_hybrid_search_amended (sim : Product → ℚ) (emb : List ℚ)
    (catalog : List Product) (f : HybridFilters) (limit : Nat) :
    (hybrid_search sim emb catalog f limit).length ≤ limit ∧
    (∀ p ∈ hybrid_search sim emb catalog f limit,
        hybridMatch f p = true ∧ p ∈ vector_search sim emb catalog (limit * 3)) ∧
    List.Sorted (fun a b => sim b ≤ sim a) (hybrid_search sim emb catalog f limit) ∧
    (hybridCandidatePool sim catalog limit).length
      = min (limit * 3) (indexedProducts catalog).length := by
  have hpool : (hybridCandidatePool sim catalog limit).length
      = min (limit * 3) (indexedProducts catalog).length := by
    unfold hybridCandidatePool
    rw [List.length_take, length_rankByScore]
  by_cases he : emb.isEmpty = true
  · have hrw : hybrid_search sim emb catalog f limit = [] := by
      unfold hybrid_search
      rw [if_pos he]
    refine ⟨?_, ?_, ?_, hpool⟩
    · rw [hrw]
      exact Nat.zero_le _
    · intro p hp
      rw [hrw] at hp
      simp at hp
    · rw [hrw]
      exact List.sorted_nil
  · have hrw : hybrid_search sim emb catalog f limit
        = ((hybridCandidatePool sim catalog limit).filter (hybridMatch f)).take limit := by
      unfold hybrid_search
      rw [if_neg he]
    have hvs : vector_search sim emb catalog (limit * 3)
        = (rankByScore sim (indexedProducts catalog)).take (limit * 3) := by
      unfold vector_search
      rw [if_neg he]
    refine ⟨?_, ?_, ?_, hpool⟩
    · rw [hrw, List.length_take]
      exact min_le_left _ _
    · intro p hp
      rw [hrw] at hp
      have hmem := List.mem_filter.mp (List.take_subset _ _ hp)
      refine ⟨hmem.2, ?_⟩
      rw [hvs]
      have hc := hmem.1
      unfold hybridCandidatePool at hc
      exact hc
    · rw [hrw]
      have hsub : (((hybridCandidatePool sim catalog limit).filter (hybridMatch f)).take limit).Sublist
          (rankByScore sim (indexedProducts catalog)) := by
        refine List.Sublist.trans (List.take_sublist _ _) ?_
        refine List.Sublist.trans (List.filter_sublist _) ?_
        unfold hybridCandidatePool
        exact List.take_sublist _ _
      exact List.Pairwise.sublist hsub (sorted_rankByScore sim (indexedProducts catalog))

/-- C6 witness: at a concrete indexed catalog and a ceiling-500 filter the
membership part of the amended theorem yields the filter match and the
inclusion in the enlarged vector search. -/
theorem C6_hybrid_search_amended_witness :
    hybridMatch ceiling500 pExpensive = true ∧
    pExpensive ∈ vector_search simZero [1] [pExpensive] (1 * 3) :=
  (C6_hybrid_search_amended simZero [1] [pExpensive] ceiling500 1).2.1 pExpensive
    (by decide)

/-- C7: when the embedding function is unavailable or returns no vector
(the empty embedding, exactly what `generate_text_embedding` produces on
failure), both `vector_search` and `hybrid_search` return the empty list;
being total functions of the model they raise nothing. -/
theorem C7_empty_embedding_degradation (sim : Product → ℚ) (catalog : List Product)
    (f : HybridFilters) (limit : Nat) :
    vector_search sim [] catalog limit = [] ∧
    hybrid_search sim [] catalog f limit = [] :=
  ⟨rfl, rfl⟩

/-- C8: in the exhausted session state (`sent_count = total_found = 3`) a
message classified as show-more falls through to the generic flow — and in
fact no session state and no classifier action can ever produce the
exhaustion reply, because the `sent_count >= total_found` re-check of
`main.py` line 850 sits inside the branch that line 830 only enters when
`sent_count < total_found`: the "you've seen everything" message is dead
code, and the exhausted-session show-more is handled by the ordinary
classifier flow (which may start a fresh search) instead. -/
theorem C8_exhaustion_reply_unreachable :
    webhook_show_more_dispatch (some ⟨"rolex", 3, 3, none, none, none⟩)
        ClassifierAction.show_more = WebhookOutcome.normalFlow ∧
    ∀ (ctx : Option SearchContext) (action : ClassifierAction),
      (webhook_show_more_dispatch ctx action).isExhaustionMessage = false := by
  refine ⟨by decide, ?_⟩
  intro ctx action
  cases ctx with
  | none => rfl
  | some c =>
      cases action with
      | other => rfl
      | show_more =>
          show (if c.sent_count < c.total_found then
              if c.total_found ≤ c.sent_count then WebhookOutcome.exhaustionMessage
              else WebhookOutcome.sendNextBatch c.sent_count
            else WebhookOutcome.normalFlow).isExhaustionMessage = false
          by_cases h : c.sent_count < c.total_found
          · rw [if_pos h, if_neg (by omega)]
            rfl
          · rw [if_neg h]
            rfl

/-- C9 counterexample: over a catalog with 52 keyword matches for "rolex",
one of them without images, the recorded `total_found` is 49 — the fetch
is capped at `max_results = 50` and the zero-image product fetched within
the cap is dropped from the count — while the size of the full result set
is 52, so `total_found` neither equals the full-set size nor counts
zero-image products. -/
theorem C9_total_found_counterexample :
    (send_product_images_v2 bigCatalog "rolex" 0 10 none none none dlAll).2.1 = 49 ∧
    (search_products_by_text bigCatalog "rolex" 0 none none none).length = 52 ∧
    pRolexNoImg ∈ search_products_by_text bigCatalog "rolex" 50 none none none ∧
    pRolexNoImg.image_urls = [] := by
  refine ⟨by decide, by decide, by decide, by decide⟩

/-- C9 amended: on every successful search, the recorded `total_found`
equals the number of products of the images-list response — the products
with at least one successfully downloaded image among the first 50 keyword
matches (the internal fetch is capped at `max_results = 50`) — and is
therefore at most 50; every product of that response carries at least one
delivered image, so zero-image products are omitted from the delivered set
and from `total_found` alike. -/
theorem C9_total_found_amended (catalog : List Product) (keyword : String)
    (start_index batch_size : Nat) (minp maxp : Option ℚ) (cat : Option String)
    (dl : String → Bool) :
    ((send_product_images_v2 catalog keyword start_index batch_size minp maxp cat dl).1
        = true →
      (send_product_images_v2 catalog keyword start_index batch_size minp maxp cat dl).2.1
        = (imagesListResults catalog keyword 50 minp maxp dl).length ∧
      (send_product_images_v2 catalog keyword start_index batch_size minp maxp cat dl).2.1
        ≤ 50) ∧
    ∀ pr ∈ imagesListResults catalog keyword 50 minp maxp dl, pr.2.isEmpty = false := by
  constructor
  · intro hs
    have hlen := imagesListResults_length_le catalog keyword 50 (by decide) minp maxp dl
    unfold send_product_images_v2 at hs ⊢
    by_cases h1 : (trimL (chars keyword)).length < 2
    · rw [if_pos h1] at hs
      simp at hs
    · rw [if_neg h1] at hs ⊢
      by_cases h2 : (search_products_by_text catalog keyword 50 none minp maxp).isEmpty = true
      · rw [if_pos h2] at hs
        simp at hs
      · rw [if_neg h2] at hs ⊢
        by_cases h3 : (imagesListResults catalog keyword 50 minp maxp dl).isEmpty = true
        · rw [if_pos h3] at hs
          simp at hs
        · rw [if_neg h3]
          exact ⟨rfl, hlen⟩
  · intro pr hpr
    unfold imagesListResults at hpr
    exact assignSlices_snd_not_empty _ _ _ pr hpr

/-- C9 witness: on a two-product catalog (one deliverable product, one
zero-image product) the successful call records `total_found` as the
images-list response length, and the concrete response entry carries its
image. -/
theorem C9_total_found_amended_witness :
    (send_product_images_v2 [pRolexImg, pRolexNoImg] "rolex" 0 10 none none none dlAll).2.1
        = (imagesListResults [pRolexImg, pRolexNoImg] "rolex" 50 none none dlAll).length ∧
    (pRolexImg, ["r1"]).2.isEmpty = false :=
  ⟨((C9_total_found_amended [pRolexImg, pRolexNoImg] "rolex" 0 10 none none none dlAll).1
      (by decide)).1,
   (C9_total_found_amended [pRolexImg, pRolexNoImg] "rolex" 0 10 none none none dlAll).2
     (pRolexImg, ["r1"]) (by decide)⟩

/-- C10: the token "strap" is not a brand word, yet the bidirectional
substring fallback of `normalize_brand_name` fires on the two-letter table
key "ap" contained in it and rewrites it to the canonical brand token
"Audemars"; a keyword search for "strap" therefore returns the
Audemars-named product and not the product whose name literally contains
"Strap". -/
theorem C10_substring_fallback_hijack :
    normalize_brand_name "strap" = "Audemars" ∧
    (("strap" : String) == "Audemars") = false ∧
    search_products_by_text [pAudemars, pStrapWatch] "strap" 10 none none none
        = [pAudemars] := by
  refine ⟨by decide, by decide, by decide⟩

end WatchVine
